import Mathlib

/-!
Verification of `hcipy/plotting/__init__.py`, the namespace aggregator of the
plotting subpackage.  The file under scrutiny is:

    __all__ = ['GifWriter', 'FFMpegWriter']
    __all__ += ['set_color_scheme']
    __all__ += ['plot_kde_density_1d', 'plot_kde_density_2d', 'plot_rug', 'plot_density_scatter']
    __all__ += ['errorfill']
    __all__ += ['imshow_field', 'contour_field', 'contourf_field']

    from .animation import *
    from .color_scheme import *
    from .density import *
    from .error_bars import *
    from .field import *

We embed the CPython semantics that this module exercises.  A module is its
attribute dictionary: an association list from attribute names to objects,
in insertion order, with unique keys maintained by in-place update.  Objects
are either opaque references identified by a numeric id (functions, classes)
or lists of strings (the value form an `__all__` attribute takes here);
identity of opaque objects is identity of ids.  A wildcard import
`from m import *` enumerates the export names of `m` — the contents of
`m.__all__` when that attribute is present, otherwise all attribute names not
starting with an underscore — and binds each name in the importing namespace
to the object it resolves to in `m`; a name listed in `m.__all__` but not
defined by `m` raises `AttributeError` there, aborting the importing module's
initialization.  (The importing package also gains each submodule as an
attribute under the submodule's own name; no claim observes those bindings,
so they are elided, as are the implicit dunder attributes such as
`__name__` that every module dictionary carries.)
-/

/-- A Python object, as far as this module can observe one: an opaque object
identified by its id (reference identity), or a list of strings (the shape
of an `__all__` value). -/
inductive Obj where
  | ref : Nat → Obj
  | strs : List String → Obj
  deriving DecidableEq, Repr

/-- A module's namespace: its `__dict__`, an insertion-ordered association
list from attribute names to objects. -/
abbrev PyModule := List (String × Obj)

/-- Lookup in an insertion-ordered dictionary: attribute lookup (`getattr`)
when the dictionary is a module namespace, cache lookup when it is the
process's module cache. -/
def resolve {α : Type} (m : List (String × α)) (k : String) : Option α :=
  match m with
  | [] => none
  | (k', v) :: t => if k' = k then some v else resolve t k

/-- Assignment in an insertion-ordered dictionary (`d[k] = v`): update the
existing entry in place, or append a new one, preserving insertion order. -/
def setVar {α : Type} : List (String × α) → String → α → List (String × α)
  | [], k, v => [(k, v)]
  | (k', v') :: t, k, v => if k' = k then (k, v) :: t else (k', v') :: setVar t k v

/-- A name is public when it does not start with an underscore;
wildcard import without `__all__` only copies public names. -/
def publicName (k : String) : Bool :=
  match k.data with
  | [] => true
  | c :: _ => c ≠ '_'

/-- The list of names `from m import *` will bind: the contents of
`m.__all__` when defined (an `__all__` of the wrong shape is a `TypeError`),
otherwise every public attribute name of `m`, in dictionary order. -/
def exportNames (m : PyModule) : Except String (List String) :=
  match resolve m "__all__" with
  | some (Obj.strs l) => Except.ok l
  | some (Obj.ref _) => Except.error "TypeError: bad __all__"
  | none => Except.ok ((m.map Prod.fst).filter publicName)

/-- Bind each listed name of `src` into the namespace `ns`, left to right;
a listed name that `src` does not define raises `AttributeError`. -/
def importNames (src : PyModule) : List String → List (String × Obj) → Except String (List (String × Obj))
  | [], ns => Except.ok ns
  | k :: rest, ns =>
    match resolve src k with
    | none => Except.error ("AttributeError: " ++ k)
    | some v => importNames src rest (setVar ns k v)

/-- `from src import *` executed in the namespace `ns`. -/
def starImport (ns : List (String × Obj)) (src : PyModule) : Except String (List (String × Obj)) :=
  match exportNames src with
  | Except.error e => Except.error e
  | Except.ok names => importNames src names ns

/-- Execute a sequence of wildcard imports; the first failure aborts
module initialization. -/
def importAll (ns : List (String × Obj)) : List PyModule → Except String (List (String × Obj))
  | [] => Except.ok ns
  | src :: rest =>
    match starImport ns src with
    | Except.error e => Except.error e
    | Except.ok ns' => importAll ns' rest

/-- Line 1 of the source: `__all__ = ['GifWriter', 'FFMpegWriter']`. -/
def all_animation : List String := ["GifWriter", "FFMpegWriter"]

/-- Line 2: `__all__ += ['set_color_scheme']`. -/
def all_color_scheme : List String := ["set_color_scheme"]

/-- Line 3: `__all__ += ['plot_kde_density_1d', 'plot_kde_density_2d', 'plot_rug', 'plot_density_scatter']`. -/
def all_density : List String := ["plot_kde_density_1d", "plot_kde_density_2d", "plot_rug", "plot_density_scatter"]

/-- Line 4: `__all__ += ['errorfill']`. -/
def all_error_bars : List String := ["errorfill"]

/-- Line 5: `__all__ += ['imshow_field', 'contour_field', 'contourf_field']`. -/
def all_field : List String := ["imshow_field", "contour_field", "contourf_field"]

/-- The value of `__all__` after lines 1–5: the five group lists
concatenated in the declared order. -/
def plotting_all : List String :=
  all_animation ++ all_color_scheme ++ all_density ++ all_error_bars ++ all_field

/-- Initialization of `hcipy/plotting/__init__.py`: bind `__all__` to the
statically declared list (lines 1–5), then run the five wildcard imports in
source order (lines 7–11).  The result is the module's namespace, or the
error that aborted the import. -/
def initPlotting (animation color_scheme density error_bars field : PyModule) : Except String PyModule :=
  importAll [("__all__", Obj.strs plotting_all)]
    [animation, color_scheme, density, error_bars, field]

/-- Modelled from the spec: the animation collaborator module
(`hcipy/plotting/animation.py` is not in the provided sources).  Per spec
§4/§6 it defines exactly its two declared public symbols, the writer classes
`GifWriter` and `FFMpegWriter`; each symbol is a distinct opaque object. -/
def specAnimation : PyModule := [("GifWriter", Obj.ref 1), ("FFMpegWriter", Obj.ref 2)]

/-- Modelled from the spec: the color-scheme collaborator module
(`hcipy/plotting/color_scheme.py` is not in the provided sources).  Per spec
§4/§6 it defines exactly `set_color_scheme`. -/
def specColorScheme : PyModule := [("set_color_scheme", Obj.ref 3)]

/-- Modelled from the spec: the density collaborator module
(`hcipy/plotting/density.py` is not in the provided sources).  Per spec
§4/§6 it defines exactly its four declared plotting functions. -/
def specDensity : PyModule :=
  [("plot_kde_density_1d", Obj.ref 4), ("plot_kde_density_2d", Obj.ref 5),
   ("plot_rug", Obj.ref 6), ("plot_density_scatter", Obj.ref 7)]

/-- Modelled from the spec: the error-bars collaborator module
(`hcipy/plotting/error_bars.py` is not in the provided sources).  Per spec
§4/§6 it defines exactly `errorfill`. -/
def specErrorBars : PyModule := [("errorfill", Obj.ref 8)]

/-- Modelled from the spec: the field collaborator module
(`hcipy/plotting/field.py` is not in the provided sources).  Per spec §4/§6
it defines exactly `imshow_field`, `contour_field` and `contourf_field`. -/
def specField : PyModule :=
  [("imshow_field", Obj.ref 9), ("contour_field", Obj.ref 10), ("contourf_field", Obj.ref 11)]

/-- The namespace the aggregator reaches when initialized against the
spec-modelled collaborators: `__all__` followed by the eleven bindings,
in import order. -/
def specPlottingNS : PyModule :=
  [("__all__", Obj.strs plotting_all),
   ("GifWriter", Obj.ref 1), ("FFMpegWriter", Obj.ref 2),
   ("set_color_scheme", Obj.ref 3),
   ("plot_kde_density_1d", Obj.ref 4), ("plot_kde_density_2d", Obj.ref 5),
   ("plot_rug", Obj.ref 6), ("plot_density_scatter", Obj.ref 7),
   ("errorfill", Obj.ref 8),
   ("imshow_field", Obj.ref 9), ("contour_field", Obj.ref 10), ("contourf_field", Obj.ref 11)]

/-- Whether module initialization succeeded. -/
def importOk {α : Type} : Except String α → Bool
  | Except.ok _ => true
  | Except.error _ => false

/-- The namespace produced by a module initialization, when it succeeded. -/
def okValue {α : Type} : Except String α → Option α
  | Except.ok v => some v
  | Except.error _ => none

/-- A module whose own `__all__` lists a name the module does not define;
a wildcard import from such a module raises `AttributeError`. -/
def declaresUndefined (m : PyModule) : Bool :=
  match resolve m "__all__" with
  | some (Obj.strs l) => l.any (fun k => (resolve m k).isNone)
  | _ => false

/-- A module all of whose wildcard-export names are public (none starts with
an underscore); this is automatic for a module without `__all__`. -/
def publicExports (m : PyModule) : Bool :=
  match exportNames m with
  | Except.ok l => l.all publicName
  | Except.error _ => true

/-- The process's module cache (`sys.modules`), restricted to what this
package touches: a dictionary from dotted module names to loaded module
namespaces. -/
abbrev Env := List (String × PyModule)

/-- Executing `import hcipy.plotting` in process state `env`, against the
given five collaborator modules: if the package is already cached, its
initializer does not run again and the state is unchanged; otherwise the
initializer runs and, on success, the new namespace is registered in the
cache under `hcipy.plotting`.  A failed initializer registers nothing. -/
def loadPlotting (env : Env) (animation color_scheme density error_bars field : PyModule) :
    Except String Env :=
  match resolve env "hcipy.plotting" with
  | some _ => Except.ok env
  | none =>
    match initPlotting animation color_scheme density error_bars field with
    | Except.error e => Except.error e
    | Except.ok ns => Except.ok (setVar env "hcipy.plotting" ns)

/-- Caller-visible lifecycle of the aggregator: it is either not
yet imported, or imported with some namespace. -/
inductive AggState where
  | uninit : AggState
  | initd : PyModule → AggState

/-- The aggregator's one possible transition: a successful run of the
initializer against the (spec-modelled) collaborator modules. -/
inductive AggStep : AggState → AggState → Prop where
  | load (m : PyModule) :
      initPlotting specAnimation specColorScheme specDensity specErrorBars specField
        = Except.ok m →
      AggStep AggState.uninit (AggState.initd m)

/-- States a caller can observe, starting from the not-yet-imported state. -/
def AggReachable (s : AggState) : Prop :=
  Relation.ReflTransGen AggStep AggState.uninit s

/-- What resolving an exported name yields in each caller-visible state:
before the import nothing resolves; afterwards, the module's attributes. -/
def resolveIn : AggState → String → Option Obj
  | AggState.uninit, _ => none
  | AggState.initd m, k => resolve m k

/-- A stub error-bars collaborator that defines nothing at all — in
particular no `errorfill` — and declares no `__all__` of its own. -/
def stubErrorBars : PyModule := []

/-- A faulty error-bars collaborator whose own `__all__` declares
`errorfill` without defining it. -/
def badErrorBars : PyModule := [("__all__", Obj.strs ["errorfill"])]

/-- An error-bars collaborator that, besides `errorfill`, also defines
`imshow_field` — a public name the field collaborator defines as well —
bound to a distinct object. -/
def clashErrorBars : PyModule := [("errorfill", Obj.ref 8), ("imshow_field", Obj.ref 99)]

/-- The namespace the aggregator reaches against `stubErrorBars`: all
bindings except `errorfill` are present. -/
def reducedPlottingNS : PyModule :=
  [("__all__", Obj.strs plotting_all),
   ("GifWriter", Obj.ref 1), ("FFMpegWriter", Obj.ref 2),
   ("set_color_scheme", Obj.ref 3),
   ("plot_kde_density_1d", Obj.ref 4), ("plot_kde_density_2d", Obj.ref 5),
   ("plot_rug", Obj.ref 6), ("plot_density_scatter", Obj.ref 7),
   ("imshow_field", Obj.ref 9), ("contour_field", Obj.ref 10), ("contourf_field", Obj.ref 11)]

/-- The collaborator module that owns each declared export name, per the
declared grouping. -/
def specOwner (n : String) : PyModule :=
  if n ∈ all_animation then specAnimation
  else if n ∈ all_color_scheme then specColorScheme
  else if n ∈ all_density then specDensity
  else if n ∈ all_error_bars then specErrorBars
  else specField

theorem resolve_setVar {α : Type} (ns : List (String × α)) (k' k : String) (v : α) :
    resolve (setVar ns k' v) k = if k' = k then some v else resolve ns k := by
  induction ns with
  | nil => simp [setVar, resolve]
  | cons p t ih =>
    obtain ⟨k0, v0⟩ := p
    by_cases h0 : k0 = k'
    · subst h0
      by_cases hk : k0 = k <;> simp [setVar, resolve, hk]
    · by_cases hk : k0 = k
      · subst hk
        have hne : ¬ k' = k0 := fun h => h0 h.symm
        simp [setVar, resolve, h0, hne]
      · simp [setVar, resolve, h0, hk, ih]

theorem importNames_ok_not_mem (src : PyModule) (k : String) :
    ∀ (names : List String) (ns ns' : List (String × Obj)),
      importNames src names ns = Except.ok ns' → k ∉ names →
      resolve ns' k = resolve ns k := by
  intro names
  induction names with
  | nil =>
    intro ns ns' h _
    simp only [importNames] at h
    cases h
    rfl
  | cons k0 rest ih =>
    intro ns ns' h hk
    have h2 : ¬(k = k0 ∨ k ∈ rest) := fun hc => hk (List.mem_cons.mpr hc)
    push_neg at h2
    cases hres : resolve src k0 with
    | none =>
      simp only [importNames, hres] at h
      exact Except.noConfusion h
    | some v =>
      simp only [importNames, hres] at h
      rw [ih _ _ h h2.2, resolve_setVar, if_neg (fun he => h2.1 he.symm)]

theorem importNames_ok_mem (src : PyModule) (k : String) :
    ∀ (names : List String) (ns ns' : List (String × Obj)),
      importNames src names ns = Except.ok ns' → k ∈ names →
      resolve ns' k = resolve src k := by
  intro names
  induction names with
  | nil => intro ns ns' _ hk; cases hk
  | cons k0 rest ih =>
    intro ns ns' h hk
    cases hres : resolve src k0 with
    | none =>
      simp only [importNames, hres] at h
      exact Except.noConfusion h
    | some v =>
      simp only [importNames, hres] at h
      by_cases hmem : k ∈ rest
      · exact ih _ _ h hmem
      · have hk0 : k = k0 := by
          rcases List.mem_cons.mp hk with h' | h'
          · exact h'
          · exact absurd h' hmem
        subst hk0
        rw [importNames_ok_not_mem src k rest _ _ h hmem, resolve_setVar, if_pos rfl, hres]

theorem importNames_fails (src : PyModule) :
    ∀ (names : List String), names.any (fun k => (resolve src k).isNone) = true →
      ∀ ns, importOk (importNames src names ns) = false := by
  intro names
  induction names with
  | nil => intro h; cases h
  | cons k0 rest ih =>
    intro h ns
    cases hres : resolve src k0 with
    | none => simp only [importNames, hres, importOk]
    | some v =>
      simp only [importNames, hres]
      have hrest : rest.any (fun k => (resolve src k).isNone) = true := by
        simp only [List.any_cons, hres, Option.isNone_some, Bool.false_or] at h
        exact h
      exact ih hrest _

theorem starImport_ok_mem (ns : List (String × Obj)) (src : PyModule)
    (ns' : List (String × Obj)) (names : List String) (k : String)
    (h : starImport ns src = Except.ok ns') (hn : exportNames src = Except.ok names)
    (hk : k ∈ names) : resolve ns' k = resolve src k := by
  simp only [starImport, hn] at h
  exact importNames_ok_mem src k names ns ns' h hk

theorem starImport_ok_not_mem (ns : List (String × Obj)) (src : PyModule)
    (ns' : List (String × Obj)) (names : List String) (k : String)
    (h : starImport ns src = Except.ok ns') (hn : exportNames src = Except.ok names)
    (hk : k ∉ names) : resolve ns' k = resolve ns k := by
  simp only [starImport, hn] at h
  exact importNames_ok_not_mem src k names ns ns' h hk

/-- The name `__all__` is not public. -/
theorem publicName_all_attr : publicName "__all__" = false := by rfl

/-- A wildcard import from a module whose export names are all public leaves
the importing module's own `__all__` binding unchanged. -/
theorem starImport_preserves_all_attr (ns : List (String × Obj)) (src : PyModule)
    (ns' : List (String × Obj)) (h : starImport ns src = Except.ok ns')
    (hp : publicExports src = true) :
    resolve ns' "__all__" = resolve ns "__all__" := by
  cases hn : exportNames src with
  | error e =>
    simp only [starImport, hn] at h
    exact Except.noConfusion h
  | ok names =>
    refine starImport_ok_not_mem ns src ns' names _ h hn ?_
    intro hmem
    have : publicName "__all__" = true := by
      have := hp
      simp only [publicExports, hn, List.all_eq_true] at this
      exact this _ hmem
    rw [publicName_all_attr] at this
    cases this

/-- A wildcard import from a module whose own `__all__` lists an undefined
name fails with `AttributeError`. -/
theorem starImport_fails_of_declaresUndefined (ns : List (String × Obj)) (src : PyModule)
    (h : declaresUndefined src = true) : importOk (starImport ns src) = false := by
  simp only [declaresUndefined] at h
  cases hres : resolve src "__all__" with
  | none => rw [hres] at h; cases h
  | some o =>
    cases o with
    | ref i => rw [hres] at h; cases h
    | strs l =>
      rw [hres] at h
      have hn : exportNames src = Except.ok l := by
        simp only [exportNames, hres]
      simp only [starImport, hn]
      exact importNames_fails src l h ns

theorem importAll_cons_ok (ns ns' : List (String × Obj)) (src : PyModule)
    (rest : List PyModule) (h : importAll ns (src :: rest) = Except.ok ns') :
    ∃ ns1, starImport ns src = Except.ok ns1 ∧ importAll ns1 rest = Except.ok ns' := by
  cases hs : starImport ns src with
  | error e =>
    simp only [importAll, hs] at h
    exact Except.noConfusion h
  | ok ns1 =>
    simp only [importAll, hs] at h
    exact ⟨ns1, rfl, h⟩

theorem importAll_nil_ok (ns ns' : List (String × Obj))
    (h : importAll ns [] = Except.ok ns') : ns' = ns := by
  simp only [importAll] at h
  cases h
  rfl

/-- If any module in the sequence has an `__all__` listing an undefined
name, the whole sequence of wildcard imports fails. -/
theorem importAll_fails (ms : List PyModule) :
    ∀ ns, (∃ m ∈ ms, declaresUndefined m = true) →
      importOk (importAll ns ms) = false := by
  induction ms with
  | nil => intro ns h; rcases h with ⟨m, hm, _⟩; cases hm
  | cons m0 rest ih =>
    intro ns h
    rcases h with ⟨m, hm, hbad⟩
    cases hs : starImport ns m0 with
    | error e => simp only [importAll, hs, importOk]
    | ok ns1 =>
      rcases List.mem_cons.mp hm with rfl | hmem
      · have := starImport_fails_of_declaresUndefined ns m hbad
        rw [hs] at this
        cases this
      · simp only [importAll, hs]
        exact ih ns1 ⟨m, hmem, hbad⟩

/-- C1: after lines 1–5, the aggregator's export list `__all__` contains
exactly the eleven declared names — `GifWriter`, `FFMpegWriter`,
`set_color_scheme`, `plot_kde_density_1d`, `plot_kde_density_2d`,
`plot_rug`, `plot_density_scatter`, `errorfill`, `imshow_field`,
`contour_field`, `contourf_field` — in the declared grouping order
(animation, color-scheme, density, error-bars, field), and no others. -/
theorem plotting_all_exact :
    plotting_all =
      ["GifWriter", "FFMpegWriter", "set_color_scheme",
       "plot_kde_density_1d", "plot_kde_density_2d", "plot_rug", "plot_density_scatter",
       "errorfill", "imshow_field", "contour_field", "contourf_field"] ∧
    plotting_all.length = 11 :=
  ⟨rfl, rfl⟩

/-- C5: the export list built by the five concatenations contains no
duplicate names. -/
theorem plotting_all_nodup : plotting_all.Nodup := by decide

/-- C3: against the spec-modelled collaborators, initialization succeeds
and every one of the eleven declared export names resolves in the
aggregated namespace to a defined symbol that is the very object its owning
collaborator defines; in particular `imshow_field` is exactly the field
collaborator's object. -/
theorem resolve_matches_owner :
    initPlotting specAnimation specColorScheme specDensity specErrorBars specField
      = Except.ok specPlottingNS ∧
    (∀ n ∈ plotting_all, (resolve specPlottingNS n).isSome = true ∧
      resolve specPlottingNS n = resolve (specOwner n) n) ∧
    resolve specPlottingNS "imshow_field" = resolve specField "imshow_field" := by
  refine ⟨rfl, ?_, rfl⟩
  decide

/-- C2 counterexample: an error-bars collaborator that fails to define the
declared name `errorfill` (and declares no export list of its own) does not
make initialization fail — the aggregator loads successfully, so the
missing symbol is not a load-time fault. -/
theorem missing_symbol_loads_anyway :
    resolve stubErrorBars "errorfill" = none ∧
    importOk (initPlotting specAnimation specColorScheme specDensity stubErrorBars specField)
      = true :=
  ⟨rfl, rfl⟩

/-- C2 amended: initialization fails at load time only when a
collaborator's own `__all__` declares a name the collaborator does not
define; in that case the wildcard import raises and the aggregator's
initialization fails before completing.  A collaborator that merely omits
a declared name causes no load-time fault. -/
theorem init_fails_of_declared_undefined (a c d e f : PyModule)
    (h : ∃ m ∈ [a, c, d, e, f], declaresUndefined m = true) :
    importOk (initPlotting a c d e f) = false := by
  unfold initPlotting
  exact importAll_fails [a, c, d, e, f] _ h

/-- Witness for the amended C2 at a concrete faulty collaborator. -/
theorem init_fails_of_declared_undefined_witness :
    importOk (initPlotting specAnimation specColorScheme specDensity badErrorBars specField)
      = false :=
  init_fails_of_declared_undefined specAnimation specColorScheme specDensity badErrorBars specField
    ⟨badErrorBars,
     List.mem_cons_of_mem _ (List.mem_cons_of_mem _ (List.mem_cons_of_mem _
       (List.mem_cons_self _ _))), rfl⟩

/-- C4 counterexample: with an error-bars collaborator missing `errorfill`,
aggregation does not fail — it produces a namespace in which the other
symbols (here `imshow_field`) are perfectly usable while only `errorfill`
is absent, i.e. access is partial, not all-or-nothing. -/
theorem reduced_access_on_missing_symbol :
    okValue (initPlotting specAnimation specColorScheme specDensity stubErrorBars specField)
      = some reducedPlottingNS ∧
    resolve reducedPlottingNS "imshow_field" = some (Obj.ref 9) ∧
    resolve reducedPlottingNS "errorfill" = none :=
  ⟨rfl, rfl, rfl⟩

/-- C4 amended: all-or-nothing holds only for import-time errors — when
initialization fails, no aggregated namespace is produced at all; but a
collaborator merely missing one declared symbol does not abort aggregation:
initialization succeeds and every declared name other than the missing one
is usable, the missing one alone being unresolvable. -/
theorem all_or_nothing_amended :
    (∀ a c d e f, importOk (initPlotting a c d e f) = false →
        okValue (initPlotting a c d e f) = none) ∧
    initPlotting specAnimation specColorScheme specDensity stubErrorBars specField
      = Except.ok reducedPlottingNS ∧
    (∀ n ∈ plotting_all, n ≠ "errorfill" →
        (resolve reducedPlottingNS n).isSome = true) ∧
    resolve reducedPlottingNS "errorfill" = none := by
  refine ⟨?_, rfl, by decide, rfl⟩
  intro a c d e f h
  cases hr : initPlotting a c d e f with
  | error e0 => rfl
  | ok v =>
    rw [hr] at h
    exact Bool.noConfusion h

/-- Witness for the amended C4 at a concrete failing initialization. -/
theorem all_or_nothing_amended_witness :
    okValue (initPlotting specAnimation specColorScheme specDensity badErrorBars specField)
      = none :=
  all_or_nothing_amended.1 specAnimation specColorScheme specDensity badErrorBars specField rfl

/-- C9: the export list is assigned (lines 1–5) before any wildcard import
runs (lines 7–11) and is insensitive to collaborator contents: whenever
initialization succeeds and the collaborators export only public names (as
every module without an explicit `__all__` does), the aggregated module's
`__all__` is still exactly the eleven statically declared strings, whatever
else — including extra public names — the collaborators define. -/
theorem all_attr_independent_of_collaborators (a c d e f : PyModule) (ns' : PyModule)
    (hp : publicExports a = true ∧ publicExports c = true ∧ publicExports d = true ∧
          publicExports e = true ∧ publicExports f = true)
    (h : initPlotting a c d e f = Except.ok ns') :
    resolve ns' "__all__" = some (Obj.strs plotting_all) := by
  unfold initPlotting at h
  obtain ⟨n1, h1, h'⟩ := importAll_cons_ok _ _ _ _ h
  obtain ⟨n2, h2, h'⟩ := importAll_cons_ok _ _ _ _ h'
  obtain ⟨n3, h3, h'⟩ := importAll_cons_ok _ _ _ _ h'
  obtain ⟨n4, h4, h'⟩ := importAll_cons_ok _ _ _ _ h'
  obtain ⟨n5, h5, h'⟩ := importAll_cons_ok _ _ _ _ h'
  have hns : ns' = n5 := importAll_nil_ok _ _ h'
  subst hns
  rw [starImport_preserves_all_attr _ _ _ h5 hp.2.2.2.2,
      starImport_preserves_all_attr _ _ _ h4 hp.2.2.2.1,
      starImport_preserves_all_attr _ _ _ h3 hp.2.2.1,
      starImport_preserves_all_attr _ _ _ h2 hp.2.1,
      starImport_preserves_all_attr _ _ _ h1 hp.1]
  rfl

/-- Witness for C9 at collaborators one of which defines an extra public
name (`clashErrorBars` also defines `imshow_field`). -/
theorem all_attr_independent_of_collaborators_witness :
    resolve specPlottingNS "__all__" = some (Obj.strs plotting_all) :=
  all_attr_independent_of_collaborators specAnimation specColorScheme specDensity
    clashErrorBars specField specPlottingNS ⟨rfl, rfl, rfl, rfl, rfl⟩ rfl

/-- C10: the wildcard imports bind last-wins in the fixed source order
animation, color-scheme, density, error-bars, field: every name the field
collaborator exports resolves in the aggregated namespace to the field
collaborator's object, silently shadowing any earlier collaborator's
binding of that name; and a name the field collaborator does not export but
the error-bars collaborator does resolves to the error-bars object. -/
theorem later_import_shadows (a c d e f : PyModule) (ns' : PyModule) (nf : List String)
    (h : initPlotting a c d e f = Except.ok ns')
    (hf : exportNames f = Except.ok nf) :
    (∀ k ∈ nf, resolve ns' k = resolve f k) ∧
    (∀ ne, exportNames e = Except.ok ne →
      ∀ k ∈ ne, k ∉ nf → resolve ns' k = resolve e k) := by
  unfold initPlotting at h
  obtain ⟨n1, h1, h'⟩ := importAll_cons_ok _ _ _ _ h
  obtain ⟨n2, h2, h'⟩ := importAll_cons_ok _ _ _ _ h'
  obtain ⟨n3, h3, h'⟩ := importAll_cons_ok _ _ _ _ h'
  obtain ⟨n4, h4, h'⟩ := importAll_cons_ok _ _ _ _ h'
  obtain ⟨n5, h5, h'⟩ := importAll_cons_ok _ _ _ _ h'
  have hns : ns' = n5 := importAll_nil_ok _ _ h'
  subst hns
  constructor
  · intro k hk
    exact starImport_ok_mem _ _ _ _ _ h5 hf hk
  · intro ne he k hke hknf
    rw [starImport_ok_not_mem _ _ _ _ _ h5 hf hknf]
    exact starImport_ok_mem _ _ _ _ _ h4 he hke

/-- Witness for C10: `clashErrorBars` and the field collaborator both
define `imshow_field` (as distinct objects); the aggregated namespace binds
it to the field collaborator's object, the last one imported. -/
theorem later_import_shadows_witness :
    resolve clashErrorBars "imshow_field" = some (Obj.ref 99) ∧
    resolve specPlottingNS "imshow_field" = resolve specField "imshow_field" ∧
    resolve specField "imshow_field" = some (Obj.ref 9) :=
  ⟨rfl,
   (later_import_shadows specAnimation specColorScheme specDensity clashErrorBars specField
      specPlottingNS ["imshow_field", "contour_field", "contourf_field"] rfl rfl).1
     "imshow_field" (by decide),
   rfl⟩

/-- C6: importing the aggregator again is idempotent: after a
successful import, importing once more succeeds, changes the process state not at all
— so every name is bound to the identical object, with no drift — and the
export list carries no duplicate entries. -/
theorem load_idempotent (env : Env) (a c d e f : PyModule) (env' : Env)
    (h : loadPlotting env a c d e f = Except.ok env') :
    loadPlotting env' a c d e f = Except.ok env' ∧ plotting_all.Nodup := by
  refine ⟨?_, by decide⟩
  unfold loadPlotting at h ⊢
  cases hc : resolve env "hcipy.plotting" with
  | some m =>
    simp only [hc] at h
    cases h
    simp only [hc]
  | none =>
    simp only [hc] at h
    cases hi : initPlotting a c d e f with
    | error e0 =>
      rw [hi] at h
      exact Except.noConfusion h
    | ok ns =>
      rw [hi] at h
      cases h
      have hx : resolve (setVar env "hcipy.plotting" ns) "hcipy.plotting" = some ns := by
        rw [resolve_setVar]
        simp
      simp only [hx]

/-- Witness for C6: a first import into an empty process state, then a
second one. -/
theorem load_idempotent_witness :
    loadPlotting [("hcipy.plotting", specPlottingNS)]
        specAnimation specColorScheme specDensity specErrorBars specField
      = Except.ok [("hcipy.plotting", specPlottingNS)] ∧
    plotting_all.Nodup :=
  load_idempotent [] specAnimation specColorScheme specDensity specErrorBars specField
    [("hcipy.plotting", specPlottingNS)] rfl

/-- C7: importing the aggregator mutates nothing outside the aggregator's
own cache entry: every other module's binding in the process state — in
particular each collaborator's — is exactly what it was before
the import. -/
theorem load_frame (env : Env) (a c d e f : PyModule) (env' : Env)
    (h : loadPlotting env a c d e f = Except.ok env')
    (k : String) (hk : k ≠ "hcipy.plotting") :
    resolve env' k = resolve env k := by
  unfold loadPlotting at h
  cases hc : resolve env "hcipy.plotting" with
  | some m =>
    simp only [hc] at h
    cases h
    rfl
  | none =>
    simp only [hc] at h
    cases hi : initPlotting a c d e f with
    | error e0 =>
      rw [hi] at h
      exact Except.noConfusion h
    | ok ns =>
      rw [hi] at h
      cases h
      rw [resolve_setVar]
      exact if_neg (fun he => hk he.symm)

/-- Witness for C7: a foreign cache entry (`os`) is untouched by
the import. -/
theorem load_frame_witness :
    resolve [("os", ([] : PyModule)), ("hcipy.plotting", specPlottingNS)] "os"
      = resolve [("os", ([] : PyModule))] "os" :=
  load_frame [("os", [])] specAnimation specColorScheme specDensity specErrorBars specField
    [("os", []), ("hcipy.plotting", specPlottingNS)] rfl "os" (by decide)

/-- C8: callers never observe a partially initialized aggregator: the
lifecycle has exactly one transition — from uninitialized to initialized —
and in every caller-reachable state either none of the eleven declared
names resolves or all of them do. -/
theorem no_half_initialized_state (s : AggState) (hs : AggReachable s) :
    ((∀ n ∈ plotting_all, resolveIn s n = none) ∨
     (∀ n ∈ plotting_all, (resolveIn s n).isSome = true)) ∧
    (∀ t u, AggStep t u → t = AggState.uninit ∧ ∃ m, u = AggState.initd m) := by
  constructor
  · induction hs with
    | refl =>
      left
      intro n _
      rfl
    | tail hr hstep ih =>
      cases hstep with
      | load m hm =>
        right
        have hM : (Except.ok specPlottingNS : Except String PyModule) = Except.ok m := by
          rw [← hm]
          rfl
        cases hM
        decide
  · intro t u hstep
    cases hstep with
    | load m hm => exact ⟨rfl, m, rfl⟩

/-- Witness for C8 at the initialized state reached by one load step. -/
theorem no_half_initialized_state_witness :
    ((∀ n ∈ plotting_all, resolveIn (AggState.initd specPlottingNS) n = none) ∨
     (∀ n ∈ plotting_all, (resolveIn (AggState.initd specPlottingNS) n).isSome = true)) ∧
    (∀ t u, AggStep t u → t = AggState.uninit ∧ ∃ m, u = AggState.initd m) :=
  no_half_initialized_state (AggState.initd specPlottingNS)
    (Relation.ReflTransGen.single (AggStep.load specPlottingNS rfl))
